import Mathlib

/-!
Verification development for the sophia_doc repository (a Python API-doc
generator).  The Python source is shallowly embedded: pure repository
functions become Lean functions; results of the host runtime's reflection
facilities (inspect, pkgutil, importlib, the docstring parser) are fields of
the embedded object records, since they are external collaborators of the
code under study.  File map:

* sophia_doc/utils.py     : format_parameter, format_signature, format_annotation
* sophia_doc/__init__.py  : _get_own_doc, _getdoc, getdoc, is_visible_name,
                            isdata, DocNode.from_obj, ModuleNode.attributes,
                            ModuleNode.submodules, ClassNode.attributes
* sophia_doc/builders/markdown.py : Markdown helpers, MarkdownBuilder.text,
                            build_doc, build_class, build_function, build_data
-/

set_option maxHeartbeats 1000000

/-- Mirror of inspect.Parameter.kind (external enumeration used by
sophia_doc/utils.py). -/
inductive ParamKind where
  | positional_only
  | positional_or_keyword
  | var_positional
  | keyword_only
  | var_keyword
  deriving DecidableEq, Repr

/-- An annotation object as seen by format_annotation (utils.py lines 37-56):
`empty` is the inspect.Signature.empty sentinel, `strAnn` a string annotation
returned as-is, and `objAnn` carries the string produced by the external
inspect.formatannotation call after the ForwardRef regex substitution. -/
inductive Ann where
  | empty
  | strAnn (s : String)
  | objAnn (s : String)
  deriving DecidableEq, Repr

/-- One inspect.Parameter: its name, kind, annotation object, and the repr
string of its default value (`none` is the inspect.Parameter.empty
sentinel). -/
structure Param where
  name : String
  kind : ParamKind
  anno : Ann
  default : Option String
  deriving DecidableEq, Repr

/-- One inspect.Signature: ordered parameters plus the return annotation
(`Ann.empty` is the inspect.Signature.empty sentinel). -/
structure Signature where
  parameters : List Param
  retAnno : Ann
  deriving DecidableEq, Repr

/-- Python str.join: join a list of strings with a separator. -/
def joinSep (sep : String) : List String → String
  | [] => ""
  | [x] => x
  | x :: y :: xs => x ++ sep ++ joinSep sep (y :: xs)

/-- format_annotation (utils.py lines 37-56): the empty sentinel formats to
"", a string annotation is returned unchanged, and any other object is
rendered by the external inspect.formatannotation + ForwardRef substitution,
whose output the `objAnn` constructor carries. -/
def format_annotation : Ann → String
  | Ann.empty => ""
  | Ann.strAnn s => s
  | Ann.objAnn s => s

/-- Body of format_parameter (utils.py lines 59-89) before the var-prefix
step, specialised to type_comments = False (the value used by the Markdown
builder): the annotation is never embedded, but its presence still selects
the spacing around the default value. -/
def format_parameter_core (p : Param) : String :=
  match p.default with
  | some d => if p.anno ≠ Ann.empty then p.name ++ " = " ++ d else p.name ++ "=" ++ d
  | none => p.name

/-- format_parameter (utils.py lines 59-89) with type_comments = False:
var-positional parameters are prefixed "*" and var-keyword parameters
"**". -/
def format_parameter (p : Param) : String :=
  if p.kind = ParamKind.var_positional then "*" ++ format_parameter_core p
  else if p.kind = ParamKind.var_keyword then "**" ++ format_parameter_core p
  else format_parameter_core p

/-- One iteration of the parameter loop of format_signature (utils.py lines
110-136).  The accumulator is (result, render_pos_only_separator,
render_kw_only_separator). -/
def sigStep (acc : List String × Bool × Bool) (param : Param) : List String × Bool × Bool :=
  let formatted := format_parameter param
  let result := acc.1
  let render_pos := acc.2.1
  let render_kw := acc.2.2
  let posStep : List String × Bool :=
    if param.kind = ParamKind.positional_only then (result, true)
    else if render_pos = true then (result ++ ["/"], false)
    else (result, render_pos)
  let kwStep : List String × Bool :=
    if param.kind = ParamKind.var_positional then (posStep.1, false)
    else if param.kind = ParamKind.keyword_only ∧ render_kw = true then (posStep.1 ++ ["*"], false)
    else (posStep.1, render_kw)
  (kwStep.1 ++ [formatted], posStep.2, kwStep.2)

/-- The token list built by format_signature (utils.py lines 107-141):
the loop over the parameters followed by the trailing "/" appended when only
positional-only parameters occurred. -/
def formatSignatureTokens (ps : List Param) : List String :=
  let r := ps.foldl sigStep ([], false, true)
  if r.2.1 = true then r.1 ++ ["/"] else r.1

/-- format_signature (utils.py lines 92-149) specialised to
type_comments = False (the Markdown builder's call): the joined token list in
parentheses; the return annotation is only rendered when type_comments is
set, hence never here. -/
def format_signature (s : Signature) : String :=
  "(" ++ joinSep ", " (formatSignatureTokens s.parameters) ++ ")"

theorem sigStep_posonly (res : List String) (rpos rkw : Bool) (p : Param)
    (h : p.kind = ParamKind.positional_only) :
    sigStep (res, rpos, rkw) p = (res ++ [format_parameter p], true, rkw) := by
  simp [sigStep, h]

theorem sigStep_posorkw (res : List String) (rpos rkw : Bool) (p : Param)
    (h : p.kind = ParamKind.positional_or_keyword) :
    sigStep (res, rpos, rkw) p
      = (res ++ (if rpos = true then ["/"] else []) ++ [format_parameter p], false, rkw) := by
  cases rpos <;> simp [sigStep, h]

theorem sigStep_varpos (res : List String) (rpos rkw : Bool) (p : Param)
    (h : p.kind = ParamKind.var_positional) :
    sigStep (res, rpos, rkw) p
      = (res ++ (if rpos = true then ["/"] else []) ++ [format_parameter p], false, false) := by
  cases rpos <;> simp [sigStep, h]

theorem sigStep_kwonly (res : List String) (rpos rkw : Bool) (p : Param)
    (h : p.kind = ParamKind.keyword_only) :
    sigStep (res, rpos, rkw) p
      = (res ++ (if rpos = true then ["/"] else [])
          ++ (if rkw = true then ["*"] else []) ++ [format_parameter p], false, false) := by
  cases rpos <;> cases rkw <;> simp [sigStep, h]

theorem sigStep_varkw (res : List String) (rpos rkw : Bool) (p : Param)
    (h : p.kind = ParamKind.var_keyword) :
    sigStep (res, rpos, rkw) p
      = (res ++ (if rpos = true then ["/"] else []) ++ [format_parameter p], false, rkw) := by
  cases rpos <;> simp [sigStep, h]

theorem foldl_seg_posonly (a : List Param) (res : List String) (rpos rkw : Bool)
    (h : ∀ p ∈ a, p.kind = ParamKind.positional_only) :
    a.foldl sigStep (res, rpos, rkw)
      = (res ++ a.map format_parameter, (if a = [] then rpos else true), rkw) := by
  induction a generalizing res rpos with
  | nil => simp
  | cons x xs ih =>
    have hx := h x (by simp)
    have hxs : ∀ p ∈ xs, p.kind = ParamKind.positional_only := fun p hp => h p (by simp [hp])
    rw [List.foldl_cons, sigStep_posonly res rpos rkw x hx, ih _ _ hxs]
    cases xs <;> simp

theorem foldl_seg_posorkw (b : List Param) (res : List String) (rpos rkw : Bool)
    (h : ∀ p ∈ b, p.kind = ParamKind.positional_or_keyword) :
    b.foldl sigStep (res, rpos, rkw)
      = (res ++ (if rpos = true ∧ b ≠ [] then ["/"] else []) ++ b.map format_parameter,
         (if b = [] then rpos else false), rkw) := by
  induction b generalizing res rpos with
  | nil => simp
  | cons x xs ih =>
    have hx := h x (by simp)
    have hxs : ∀ p ∈ xs, p.kind = ParamKind.positional_or_keyword := fun p hp => h p (by simp [hp])
    rw [List.foldl_cons, sigStep_posorkw res rpos rkw x hx, ih _ _ hxs]
    cases rpos <;> cases xs <;> simp

theorem foldl_seg_varpos (c : List Param) (res : List String) (rpos rkw : Bool)
    (h : ∀ p ∈ c, p.kind = ParamKind.var_positional) :
    c.foldl sigStep (res, rpos, rkw)
      = (res ++ (if rpos = true ∧ c ≠ [] then ["/"] else []) ++ c.map format_parameter,
         (if c = [] then rpos else false), (if c = [] then rkw else false)) := by
  induction c generalizing res rpos rkw with
  | nil => simp
  | cons x xs ih =>
    have hx := h x (by simp)
    have hxs : ∀ p ∈ xs, p.kind = ParamKind.var_positional := fun p hp => h p (by simp [hp])
    rw [List.foldl_cons, sigStep_varpos res rpos rkw x hx, ih _ _ _ hxs]
    cases rpos <;> cases xs <;> simp

theorem foldl_seg_kwonly (d : List Param) (res : List String) (rpos rkw : Bool)
    (h : ∀ p ∈ d, p.kind = ParamKind.keyword_only) :
    d.foldl sigStep (res, rpos, rkw)
      = (res ++ (if rpos = true ∧ d ≠ [] then ["/"] else [])
          ++ (if rkw = true ∧ d ≠ [] then ["*"] else []) ++ d.map format_parameter,
         (if d = [] then rpos else false), (if d = [] then rkw else false)) := by
  induction d generalizing res rpos rkw with
  | nil => simp
  | cons x xs ih =>
    have hx := h x (by simp)
    have hxs : ∀ p ∈ xs, p.kind = ParamKind.keyword_only := fun p hp => h p (by simp [hp])
    rw [List.foldl_cons, sigStep_kwonly res rpos rkw x hx, ih _ _ _ hxs]
    cases rpos <;> cases rkw <;> cases xs <;> simp

theorem foldl_seg_varkw (e : List Param) (res : List String) (rpos rkw : Bool)
    (h : ∀ p ∈ e, p.kind = ParamKind.var_keyword) :
    e.foldl sigStep (res, rpos, rkw)
      = (res ++ (if rpos = true ∧ e ≠ [] then ["/"] else []) ++ e.map format_parameter,
         (if e = [] then rpos else false), rkw) := by
  induction e generalizing res rpos with
  | nil => simp
  | cons x xs ih =>
    have hx := h x (by simp)
    have hxs : ∀ p ∈ xs, p.kind = ParamKind.var_keyword := fun p hp => h p (by simp [hp])
    rw [List.foldl_cons, sigStep_varkw res rpos rkw x hx, ih _ _ hxs]
    cases rpos <;> cases xs <;> simp

/-- C9: for every signature whose parameters are in the order inspect
enforces (positional-only, then positional-or-keyword, then var-positional,
then keyword-only, then var-keyword), the token list built by
format_signature consists of the formatted positional-only parameters
followed immediately by a lone "/" (placed at the very end when every
parameter is positional-only), then the positional-or-keyword and
var-positional parameters, then a lone "*" exactly when keyword-only
parameters exist and no var-positional parameter preceded them, then the
keyword-only and var-keyword parameters; var-positional and var-keyword
parameters are prefixed "*" and "**" respectively by format_parameter. -/
theorem format_signature_markers (a b c d e : List Param)
    (ha : ∀ p ∈ a, p.kind = ParamKind.positional_only)
    (hb : ∀ p ∈ b, p.kind = ParamKind.positional_or_keyword)
    (hc : ∀ p ∈ c, p.kind = ParamKind.var_positional)
    (hd : ∀ p ∈ d, p.kind = ParamKind.keyword_only)
    (he : ∀ p ∈ e, p.kind = ParamKind.var_keyword) :
    formatSignatureTokens (a ++ b ++ c ++ d ++ e)
      = a.map format_parameter ++ (if a = [] then [] else ["/"])
        ++ b.map format_parameter ++ c.map format_parameter
        ++ (if d ≠ [] ∧ c = [] then ["*"] else [])
        ++ d.map format_parameter ++ e.map format_parameter
      ∧ (∀ p ∈ c, format_parameter p = "*" ++ format_parameter_core p)
      ∧ (∀ p ∈ e, format_parameter p = "**" ++ format_parameter_core p) := by
  refine ⟨?_, ?_, ?_⟩
  · unfold formatSignatureTokens
    rw [List.foldl_append, List.foldl_append, List.foldl_append, List.foldl_append]
    rw [foldl_seg_posonly a [] false true ha]
    rw [foldl_seg_posorkw b _ _ _ hb]
    rw [foldl_seg_varpos c _ _ _ hc]
    rw [foldl_seg_kwonly d _ _ _ hd]
    rw [foldl_seg_varkw e _ _ _ he]
    by_cases hae : a = [] <;> by_cases hbe : b = [] <;> by_cases hce : c = [] <;>
      by_cases hde : d = [] <;> by_cases hee : e = [] <;>
      simp [hae, hbe, hce, hde, hee]
  · intro p hp
    simp [format_parameter, hc p hp]
  · intro p hp
    simp [format_parameter, he p hp]

/-- Witness for format_signature_markers at a concrete five-parameter
signature covering every parameter kind. -/
theorem format_signature_markers_witness :
    formatSignatureTokens
      [⟨"x", ParamKind.positional_only, Ann.empty, none⟩,
       ⟨"y", ParamKind.positional_or_keyword, Ann.empty, none⟩,
       ⟨"args", ParamKind.var_positional, Ann.empty, none⟩,
       ⟨"k", ParamKind.keyword_only, Ann.empty, none⟩,
       ⟨"kw", ParamKind.var_keyword, Ann.empty, none⟩]
      = ["x", "/", "y", "*args", "k", "**kw"] := by
  have h := format_signature_markers
    [⟨"x", ParamKind.positional_only, Ann.empty, none⟩]
    [⟨"y", ParamKind.positional_or_keyword, Ann.empty, none⟩]
    [⟨"args", ParamKind.var_positional, Ann.empty, none⟩]
    [⟨"k", ParamKind.keyword_only, Ann.empty, none⟩]
    [⟨"kw", ParamKind.var_keyword, Ann.empty, none⟩]
    (by decide) (by decide) (by decide) (by decide) (by decide)
  simpa [format_parameter, format_parameter_core] using h.1

/-- Doc-slot facts _get_own_doc (sophia_doc/__init__.py lines 97-111) reads
off one object: the object's raw __doc__ (none covering both a missing
attribute and None), its type's __doc__ (none also covering a non-string
value, which the isinstance guard ignores), and whether the object is the
builtin type itself. -/
structure RawDoc where
  doc : Option String
  typeDoc : Option String
  isTypeItself : Bool
  deriving DecidableEq, Repr

/-- _get_own_doc (sophia_doc/__init__.py lines 97-111): the raw doc unless it
is absent or, for any object other than type itself, identical to the
docstring of the object's own type. -/
def _get_own_doc (r : RawDoc) : Option String :=
  match r.doc with
  | none => none
  | some d => if r.isTypeItself = false ∧ r.typeDoc = some d then none else some d

/-- Outcome of _find_doc (sophia_doc/__init__.py lines 43-94) for one object:
it can raise AttributeError or TypeError (caught by _getdoc), return None
from one of its early dispatch branches, return a slots-dict entry for a
member descriptor, or reach the final loop over the owning class's mro,
where each entry is the doc-slot facts of getattr(base, name) (none when that
getattr raises AttributeError). -/
inductive FindDocOutcome where
  | raises
  | noneResult
  | slotsDoc (s : String)
  | walk (bases : List (Option RawDoc))
  deriving DecidableEq, Repr

/-- The final mro loop of _find_doc (sophia_doc/__init__.py lines 87-94):
the first base attribute carrying its own (non type-inherited) doc wins. -/
def findDocWalk : List (Option RawDoc) → Option String
  | [] => none
  | none :: rest => findDocWalk rest
  | some b :: rest =>
    match _get_own_doc b with
    | some doc => some doc
    | none => findDocWalk rest

/-- Everything getdoc (sophia_doc/__init__.py lines 133-137) consults about
one object: its own doc slots, the _find_doc outcome, and the result of the
external inspect.getcomments (the source comments preceding the object's
definition, none when unavailable). -/
structure DocAttrs where
  raw : RawDoc
  findDoc : FindDocOutcome
  comments : Option String
  deriving DecidableEq, Repr

/-- Python whitespace test used by str.lstrip and friends (ASCII range). -/
def isPySpace (c : Char) : Bool :=
  c = ' ' ∨ c = '\t' ∨ c = '\n' ∨ c = '\r' ∨ c = '\x0b' ∨ c = '\x0c'

/-- str.expandtabs with tab size 8: tabs become the spaces needed to reach
the next multiple of eight, the column resetting on newline and carriage
return. -/
def expandtabsGo : List Char → Nat → List Char
  | [], _ => []
  | c :: rest, col =>
    if c = '\t' then
      List.replicate (8 - col % 8) ' ' ++ expandtabsGo rest (col + (8 - col % 8))
    else if c = '\n' ∨ c = '\r' then c :: expandtabsGo rest 0
    else c :: expandtabsGo rest (col + 1)

/-- str.split over the newline character: always at least one (possibly
empty) line. -/
def splitNl : List Char → List (List Char)
  | [] => [[]]
  | c :: rest =>
    if c = '\n' then [] :: splitNl rest
    else
      match splitNl rest with
      | [] => [[c]]
      | l :: ls => (c :: l) :: ls

/-- Indentation of one line as inspect.cleandoc measures it: none when the
line has no content after stripping whitespace. -/
def lineMargin (line : List Char) : Option Nat :=
  let content := line.dropWhile isPySpace
  if content.isEmpty then none else some (line.length - content.length)

/-- Minimum indentation over a list of lines, none when no line has
content (the sys.maxsize sentinel of inspect.cleandoc). -/
def marginOf (lines : List (List Char)) : Option Nat :=
  lines.foldl
    (fun m line =>
      match lineMargin line, m with
      | none, m => m
      | some k, none => some k
      | some k, some m' => some (min m' k))
    none

/-- Join lines with newline characters (str.join). -/
def joinNl : List (List Char) → List Char
  | [] => []
  | [l] => l
  | l :: l2 :: ls => l ++ '\n' :: joinNl (l2 :: ls)

/-- inspect.cleandoc (external helper _getdoc delegates to): expand tabs,
strip the first line, remove the uniform margin of the later lines, then
drop trailing and leading blank lines. -/
def cleandoc (doc : String) : String :=
  let lines : List (List Char) := splitNl (expandtabsGo doc.data 0)
  let margin : Option Nat := marginOf lines.tail
  let lines : List (List Char) :=
    match lines with
    | [] => []
    | l0 :: rest =>
      l0.dropWhile isPySpace ::
        (match margin with
         | some m => rest.map (fun l => List.drop m l)
         | none => rest)
  let lines : List (List Char) := (lines.reverse.dropWhile (fun l => l.isEmpty)).reverse
  let lines : List (List Char) := lines.dropWhile (fun l => l.isEmpty)
  String.mk (joinNl lines)

/-- _getdoc (sophia_doc/__init__.py lines 114-130): the object's own doc,
else the _find_doc result (None when that raised), cleaned by
inspect.cleandoc; None when nothing string-valued was found. -/
def _getdoc (d : DocAttrs) : Option String :=
  match _get_own_doc d.raw with
  | some doc => some (cleandoc doc)
  | none =>
    match d.findDoc with
    | FindDocOutcome.raises => none
    | FindDocOutcome.noneResult => none
    | FindDocOutcome.slotsDoc s => some (cleandoc s)
    | FindDocOutcome.walk bases => (findDocWalk bases).map cleandoc

/-- Python truthiness of an optional string: None and the empty string are
falsy. -/
def pyTruthy : Option String → Bool
  | none => false
  | some s => s ≠ ""

/-- getdoc (sophia_doc/__init__.py lines 133-137): the _getdoc result,
else the preceding source comments, else the empty string, with Python `or`
treating None and the empty string as absent. -/
def getdoc (d : DocAttrs) : String :=
  let result := if pyTruthy (_getdoc d) = true then _getdoc d else d.comments
  if pyTruthy result = true then result.getD "" else ""

/-- The value _find_doc hands back to _getdoc, with the raising outcome
folded into none (both make _getdoc return None). -/
def findDocResult : FindDocOutcome → Option String
  | FindDocOutcome.raises => none
  | FindDocOutcome.noneResult => none
  | FindDocOutcome.slotsDoc s => some s
  | FindDocOutcome.walk bases => findDocWalk bases

/-- A comment string under Python truthiness, else the empty string. -/
def commentOrEmpty (c : Option String) : String :=
  if pyTruthy c = true then c.getD "" else ""

/-- Concrete object refuting claim C2 as stated: its raw doc equals its
type's doc, a preceding comment exists, yet getdoc returns a doc found by
the mro walk of _find_doc rather than the comment. -/
def c2CexDoc : DocAttrs :=
  ⟨⟨some "gen", some "gen", false⟩,
   FindDocOutcome.walk [some ⟨some "base doc", none, false⟩],
   some "# note"⟩

/-- C2 counterexample: for an object whose raw doc string is identical to
its type's doc string and which has a preceding source comment, getdoc does
not return that comment (nor the empty string): _getdoc first walks the
owning class's resolution order and returns the base-class doc it finds
there, so the claimed fallback chain (comment, else empty) is wrong. -/
theorem getdoc_typedoc_comment_cex :
    c2CexDoc.raw.doc = c2CexDoc.raw.typeDoc
      ∧ c2CexDoc.raw.isTypeItself = false
      ∧ c2CexDoc.comments = some "# note"
      ∧ getdoc c2CexDoc = "base doc"
      ∧ getdoc c2CexDoc ≠ "# note"
      ∧ getdoc c2CexDoc ≠ "" := by
  decide

/-- C2 (amended): getdoc always returns a string, the empty string when no
documentation is available; a raw doc identical to the doc of the object's
own type is treated as absent by _get_own_doc; whenever the own doc is
absent the result is the _find_doc result (cleaned, and itself never a
type-inherited doc: the mro walk only returns a base attribute's own doc),
falling back to the preceding source comment, else the empty string. -/
theorem getdoc_own_vs_inherited :
    (∀ (s : String) (r : RawDoc),
        r.doc = some s → r.typeDoc = some s → r.isTypeItself = false →
        _get_own_doc r = none)
      ∧ (∀ (r : RawDoc) (fd : FindDocOutcome) (c : Option String),
          _get_own_doc r = none →
          getdoc ⟨r, fd, c⟩ =
            match findDocResult fd with
            | some d => if cleandoc d ≠ "" then cleandoc d else commentOrEmpty c
            | none => commentOrEmpty c)
      ∧ (∀ (bases : List (Option RawDoc)) (doc : String),
          findDocWalk bases = some doc →
          ∃ b ∈ bases, ∃ rb, b = some rb ∧ _get_own_doc rb = some doc) := by
  refine ⟨?_, ?_, ?_⟩
  · intro s r hdoc htype hnt
    simp [_get_own_doc, hdoc, htype, hnt]
  · intro r fd c hown
    cases fd with
    | raises => simp [getdoc, _getdoc, hown, findDocResult, commentOrEmpty, pyTruthy]
    | noneResult => simp [getdoc, _getdoc, hown, findDocResult, commentOrEmpty, pyTruthy]
    | slotsDoc s =>
      by_cases hcd : cleandoc s = "" <;>
        simp [getdoc, _getdoc, hown, findDocResult, commentOrEmpty, pyTruthy, hcd]
    | walk bases =>
      cases hw : findDocWalk bases with
      | none => simp [getdoc, _getdoc, hown, findDocResult, commentOrEmpty, pyTruthy, hw]
      | some d =>
        by_cases hcd : cleandoc d = "" <;>
          simp [getdoc, _getdoc, hown, findDocResult, commentOrEmpty, pyTruthy, hw, hcd]
  · intro bases doc hw
    induction bases with
    | nil => simp [findDocWalk] at hw
    | cons b rest ih =>
      cases b with
      | none =>
        have := ih (by simpa [findDocWalk] using hw)
        obtain ⟨b', hb', rb, hrb, hown⟩ := this
        exact ⟨b', by simp [hb'], rb, hrb, hown⟩
      | some rb =>
        cases hov : _get_own_doc rb with
        | some d' =>
          have hd : d' = doc := by
            simpa [findDocWalk, hov] using hw
          exact ⟨some rb, by simp, rb, rfl, by simpa [hd] using hov⟩
        | none =>
          have := ih (by simpa [findDocWalk, hov] using hw)
          obtain ⟨b', hb', rb', hrb', hown'⟩ := this
          exact ⟨b', by simp [hb'], rb', hrb', hown'⟩

/-- Witness for getdoc_own_vs_inherited at the concrete object c2CexDoc. -/
theorem getdoc_own_vs_inherited_witness :
    getdoc c2CexDoc = "base doc" := by
  have h := getdoc_own_vs_inherited.2.1 c2CexDoc.raw c2CexDoc.findDoc c2CexDoc.comments
    (by decide)
  rw [show c2CexDoc = ⟨c2CexDoc.raw, c2CexDoc.findDoc, c2CexDoc.comments⟩ from rfl, h]
  decide

/-- Category of a runtime object under the inspect predicates that
DocNode.from_obj and isdata consult (sophia_doc/__init__.py lines 140-150 and
236-247): module, class, routine, frame, traceback, code object, or a plain
value matching none of those. -/
inductive PyKind where
  | module
  | cls
  | routine
  | frame
  | traceback
  | code
  | plain
  deriving DecidableEq, Repr

/-- Scalar reflection facts about one runtime object, as the external
inspect / enum / abc facilities report them.  Only the fields a given object
kind actually possesses are consulted by the embedded code. -/
structure PyCore where
  id : Nat
  kind : PyKind
  pyName : Option String
  qualnameAttr : Option String
  docAttrs : DocAttrs
  getmoduleId : Option Nat
  sig : Option Signature
  isAsyncFn : Bool
  annotations : List (String × Ann)
  getterAnnotations : List (String × Ann)
  dirNames : List String
  ownDictKeys : List String
  slots : List String
  isInstanceOfEnum : Bool
  isSubclassOfEnum : Bool
  isInstanceOfException : Bool
  isSubclassOfException : Bool
  isAbstractCls : Bool
  basesInfo : List (String × String)
  isStaticW : Bool
  isClassW : Bool
  isPropertyObj : Bool
  propHasSetter : Bool
  isDataDesc : Bool
  isCachedProp : Bool

/-- A runtime object: its scalar reflection facts, its attribute map (the
module __dict__ items for a module, the getattr results over dir names for a
class), and its __func__ attribute when it is a static/class method
wrapper. -/
inductive PyObject where
  | mk (core : PyCore) (dict : List (String × PyObject)) (funcAttr : Option PyObject)

/-- Scalar facts of an object. -/
def PyObject.core : PyObject → PyCore
  | PyObject.mk c _ _ => c

/-- Attribute map of an object. -/
def PyObject.dict : PyObject → List (String × PyObject)
  | PyObject.mk _ d _ => d

/-- The __func__ attribute of a static/class method wrapper. -/
def PyObject.funcAttr : PyObject → Option PyObject
  | PyObject.mk _ _ f => f

/-- isdata (sophia_doc/__init__.py lines 140-150): an object of a type that
probably means it is data — not a module, class, routine, frame, traceback
or code object. -/
def isdata (o : PyObject) : Bool :=
  ¬(o.core.kind = PyKind.module ∨ o.core.kind = PyKind.cls
    ∨ o.core.kind = PyKind.routine ∨ o.core.kind = PyKind.frame
    ∨ o.core.kind = PyKind.traceback ∨ o.core.kind = PyKind.code)

/-- Prefix test on character lists (str.startswith). -/
def isPre : List Char → List Char → Bool
  | [], _ => true
  | _ :: _, [] => false
  | a :: as, b :: bs => a = b && isPre as bs

/-- str.startswith: does s start with pre? -/
def strStartsWith (s pre : String) : Bool :=
  isPre pre.data s.data

/-- is_visible_name (sophia_doc/__init__.py lines 153-168): "__init__" is
always visible; with an __all__ list visibility is membership in it;
otherwise any name not starting with an underscore is visible. -/
def is_visible_name (name : String) (all : Option (List String)) : Bool :=
  if name = "__init__" then true
  else
    match all with
    | some l => l.contains name
    | none => !(strStartsWith name "_")

/-- A documentation node.  Module nodes self-derive their payload from the
module object; the other kinds carry the discovery name and the computed
qualified name (DocNode.__init__, sophia_doc/__init__.py lines 196-201). -/
inductive DocNode where
  | moduleNode (obj : PyObject)
  | classNode (obj : PyObject) (name : String) (qualname : String)
  | functionNode (obj : PyObject) (name : String) (qualname : String)
  | dataNode (obj : PyObject) (name : String) (qualname : String)
  | otherNode (obj : PyObject) (name : String) (qualname : String)

/-- DocNode.from_obj (sophia_doc/__init__.py lines 223-247): classify an
object in decision order module, class, routine, plain data, other. -/
def DocNode.from_obj (obj : PyObject) (name : String) (qualname : String) : DocNode :=
  if obj.core.kind = PyKind.module then DocNode.moduleNode obj
  else if obj.core.kind = PyKind.cls then DocNode.classNode obj name qualname
  else if obj.core.kind = PyKind.routine then DocNode.functionNode obj name qualname
  else if isdata obj = true then DocNode.dataNode obj name qualname
  else DocNode.otherNode obj name qualname

/-- A module object as seen by ModuleNode.submodules: only its identity and
dotted __name__ are consulted there. -/
structure ModObj where
  id : Nat
  name : String
  deriving DecidableEq, Repr

/-- A module object wrapped by ModuleNode: identity, dotted name, doc slots,
optional __all__, the __dict__ items, whether it has a __path__ (is a
package), the names pkgutil.iter_modules yields on that path, the
external import_module oracle (none encodes the uniform ImportError), and the
module-valued members inspect.getmembers reports. -/
structure PyModule where
  id : Nat
  name : String
  docAttrs : DocAttrs
  all : Option (List String)
  dict : List (String × PyObject)
  isPackage : Bool
  iterNames : List String
  importResult : String → Option ModObj
  members : List (String × ModObj)

/-- The test `(inspect.getmodule(value) or self.obj) is self.obj` of
ModuleNode.attributes (sophia_doc/__init__.py line 270): when getmodule
cannot determine an owner the module itself is substituted, so the test
passes; otherwise it is an identity comparison with this module. -/
def getmodule_or_self_is_self (m : PyModule) (v : PyObject) : Bool :=
  match v.core.getmoduleId with
  | none => true
  | some i => i = m.id

/-- ModuleNode.attributes (sophia_doc/__init__.py lines 264-274): walk the
module's __dict__ items in order, keeping a binding when the owning-module
test and the visibility filter both pass, and classify each kept value. -/
def moduleAttributes (m : PyModule) : List DocNode :=
  m.dict.foldl
    (fun attributes kv =>
      if (getmodule_or_self_is_self m kv.2 && is_visible_name kv.1 m.all) = true then
        attributes ++ [DocNode.from_obj kv.2 kv.1 kv.1]
      else attributes)
    []

theorem foldl_if_append_eq_filter_map {α β : Type} (p : α → Bool) (g : α → β)
    (l : List α) :
    ∀ acc : List β,
      l.foldl (fun acc x => if p x = true then acc ++ [g x] else acc) acc
        = acc ++ (l.filter p).map g := by
  induction l with
  | nil => intro acc; simp
  | cons x xs ih =>
    intro acc
    by_cases hx : p x = true <;> simp [List.foldl_cons, hx, ih]

/-- The inclusion rule claim C1 must be amended to: a binding is documented
iff the owning module (inspect.getmodule's best guess, defaulting to this
module when undetermined) is this module itself AND its name passes the
visibility filter — export-list membership when an export list exists.  The
owner test is not waived for export-listed names. -/
def c1AmendedIncluded (m : PyModule) (kv : String × PyObject) : Bool :=
  getmodule_or_self_is_self m kv.2 && is_visible_name kv.1 m.all

/-- Concrete module refuting claim C1 as stated: its export list names
"foo", and "foo" is bound, but the bound object was defined in another
module (getmodule reports identity 5, not this module's 0). -/
def c1FooObj : PyObject :=
  PyObject.mk
    { id := 1, kind := PyKind.plain, pyName := some "foo", qualnameAttr := none,
      docAttrs := ⟨⟨none, none, false⟩, FindDocOutcome.noneResult, none⟩,
      getmoduleId := some 5, sig := none, isAsyncFn := false, annotations := [],
      getterAnnotations := [], dirNames := [], ownDictKeys := [], slots := [],
      isInstanceOfEnum := false, isSubclassOfEnum := false,
      isInstanceOfException := false, isSubclassOfException := false,
      isAbstractCls := false, basesInfo := [], isStaticW := false,
      isClassW := false, isPropertyObj := false, propHasSetter := false,
      isDataDesc := false, isCachedProp := false }
    [] none

/-- The module owning c1FooObj is module 5, not this module (id 0). -/
def c1CexModule : PyModule :=
  { id := 0, name := "m1",
    docAttrs := ⟨⟨none, none, false⟩, FindDocOutcome.noneResult, none⟩,
    all := some ["foo"], dict := [("foo", c1FooObj)], isPackage := false,
    iterNames := [], importResult := fun _ => none, members := [] }

/-- C1 counterexample: the name "foo" passes the visibility filter and is
listed in the module's export list, and a binding for it exists, yet
ModuleNode.attributes is empty, because the code also requires the bound
object's owning module to be this module — export-listed re-exports are NOT
included, contrary to the claim. -/
theorem moduleAttributes_requires_owner_cex :
    c1CexModule.all = some ["foo"]
      ∧ is_visible_name "foo" c1CexModule.all = true
      ∧ c1CexModule.dict = [("foo", c1FooObj)]
      ∧ c1FooObj.core.getmoduleId = some 5
      ∧ c1CexModule.id = 0
      ∧ moduleAttributes c1CexModule = [] := by
  exact ⟨rfl, rfl, rfl, rfl, rfl, rfl⟩

/-- C1 (amended): ModuleNode.attributes documents exactly the bindings for
which the owning-module test passes AND the name passes the visibility
filter, in declaration order, each classified by DocNode.from_obj; an
export list narrows visibility but never waives the owner test. -/
theorem moduleAttributes_owner_and_visibility (m : PyModule) :
    moduleAttributes m
      = (m.dict.filter (c1AmendedIncluded m)).map
          (fun kv => DocNode.from_obj kv.2 kv.1 kv.1) := by
  have h := foldl_if_append_eq_filter_map (c1AmendedIncluded m)
    (fun kv : String × PyObject => DocNode.from_obj kv.2 kv.1 kv.1) m.dict []
  simpa [moduleAttributes, c1AmendedIncluded] using h

/-- Lookup of getattr(obj, name) in an object's attribute map. -/
def lookupObj (d : List (String × PyObject)) (name : String) : Option PyObject :=
  match d with
  | [] => none
  | kv :: rest => if kv.1 = name then some kv.2 else lookupObj rest name

/-- ClassNode.attributes (sophia_doc/__init__.py lines 363-411): over the
visible dir names, skip "__init__" when isinstance(cls, Enum) holds (note:
the code tests isinstance, not issubclass), skip names that are neither
"__init__" nor in the class's own __dict__ or __slots__, classify the
getattr value into its kind string (skipping slot-created data descriptors),
unwrap static/class method wrappers to their __func__, and special-case
functools.cached_property to kind "cached property" wrapped as a DataNode.
The embedding skips a dir name whose getattr has no entry in the attribute
map; the modelled classes are those where getattr succeeds on every dir
name. -/
def classAttrStep (obj : PyObject) (qualname : String)
    (attributes : List (String × String × DocNode)) (name : String) :
    List (String × String × DocNode) :=
  if obj.core.isInstanceOfEnum = true ∧ name = "__init__" then attributes
  else if name ≠ "__init__" ∧ name ∉ obj.core.ownDictKeys ∧ name ∉ obj.core.slots then
    attributes
  else
    match lookupObj obj.dict name with
    | none => attributes
    | some value =>
      let kindOpt : Option String :=
        if value.core.isStaticW = true then some "static method"
        else if value.core.isClassW = true then some "class method"
        else if value.core.isPropertyObj = true then
          some (if value.core.propHasSetter = true then "property" else "readonly property")
        else if value.core.kind = PyKind.routine then some "method"
        else if value.core.isDataDesc = true then
          (if name ∈ obj.core.slots then none else some "data descriptor")
        else some "data"
      match kindOpt with
      | none => attributes
      | some kind =>
        let value :=
          if kind = "class method" ∨ kind = "static method" then
            value.funcAttr.getD value
          else value
        if value.core.isCachedProp = true then
          attributes ++ [(name, "cached property",
            DocNode.dataNode value name (qualname ++ "." ++ name))]
        else
          attributes ++ [(name, kind,
            DocNode.from_obj value name (qualname ++ "." ++ name))]

/-- The loop of ClassNode.attributes as a fold of classAttrStep over the
visible dir names. -/
def classAttributes (obj : PyObject) (qualname : String) : List (String × String × DocNode) :=
  (obj.core.dirNames.filter (fun n => is_visible_name n none)).foldl
    (classAttrStep obj qualname) []

/-- The wrapper-descriptor bound to "__init__" on an enumeration class: a
routine under inspect.isroutine. -/
def c4InitObj : PyObject :=
  PyObject.mk
    { id := 11, kind := PyKind.routine, pyName := some "__init__",
      qualnameAttr := none,
      docAttrs := ⟨⟨none, none, false⟩, FindDocOutcome.noneResult, none⟩,
      getmoduleId := none, sig := none, isAsyncFn := false, annotations := [],
      getterAnnotations := [], dirNames := [], ownDictKeys := [], slots := [],
      isInstanceOfEnum := false, isSubclassOfEnum := false,
      isInstanceOfException := false, isSubclassOfException := false,
      isAbstractCls := false, basesInfo := [], isStaticW := false,
      isClassW := false, isPropertyObj := false, propHasSetter := false,
      isDataDesc := false, isCachedProp := false }
    [] none

/-- An enumeration class as CPython reflects it: it is a subclass of Enum,
but — being a class whose metaclass is EnumType, not an Enum instance —
isinstance(cls, Enum) is False. -/
def c4EnumCls : PyObject :=
  PyObject.mk
    { id := 10, kind := PyKind.cls, pyName := some "Color",
      qualnameAttr := some "Color",
      docAttrs := ⟨⟨none, none, false⟩, FindDocOutcome.noneResult, none⟩,
      getmoduleId := none, sig := none, isAsyncFn := false, annotations := [],
      getterAnnotations := [], dirNames := ["__init__"], ownDictKeys := [],
      slots := [], isInstanceOfEnum := false, isSubclassOfEnum := true,
      isInstanceOfException := false, isSubclassOfException := false,
      isAbstractCls := false, basesInfo := [("enum", "Enum")],
      isStaticW := false, isClassW := false, isPropertyObj := false,
      propHasSetter := false, isDataDesc := false, isCachedProp := false }
    [("__init__", c4InitObj)] none

/-- C4: evaluating ClassNode.attributes on an enumeration class (a subclass
of Enum, for which isinstance(cls, Enum) is False as in CPython) shows that
"__init__" is NOT skipped: the isinstance test the code uses never fires for
enumeration classes, so the entry appears with kind "method" — the claim
describes the evident intent (issubclass), which the code fails to
implement. -/
theorem enum_init_not_skipped :
    c4EnumCls.core.isSubclassOfEnum = true
      ∧ c4EnumCls.core.isInstanceOfEnum = false
      ∧ (classAttributes c4EnumCls "Color").map (fun t => t.1) = ["__init__"]
      ∧ (classAttributes c4EnumCls "Color").map (fun t => t.2.1) = ["method"] := by
  exact ⟨rfl, rfl, rfl, rfl⟩

/-- ModuleNode.submodules (sophia_doc/__init__.py lines 276-301): for a
package, enumerate the pkgutil names, skip invisible ones, record every
visible name (before attempting its import), and keep the modules whose
load succeeded; a failed import only warns.  Then a second pass over the
module-valued members adds those whose dotted name starts with this
module's name plus a dot and whose binding name was not recorded by the
first pass. -/
def submodules (m : PyModule) : List ModObj :=
  let pass1 : List ModObj × List String :=
    if m.isPackage = true then
      m.iterNames.foldl
        (fun (acc : List ModObj × List String) modname =>
          if is_visible_name modname none = false then acc
          else
            let names := acc.2 ++ [modname]
            match m.importResult (m.name ++ "." ++ modname) with
            | some md => (acc.1 ++ [md], names)
            | none => (acc.1, names))
        ([], [])
    else ([], [])
  pass1.1 ++
    (m.members.filter
      (fun kv => strStartsWith kv.2.name (m.name ++ ".") && !(pass1.2.contains kv.1))).map
      (fun kv => kv.2)

/-- The visible names the enumeration pass of submodules records. -/
def enumVisibleNames (m : PyModule) : List String :=
  m.iterNames.filter (fun n => is_visible_name n none)

theorem submodules_foldl_char (m : PyModule) (l : List String) :
    ∀ acc : List ModObj × List String,
      l.foldl
        (fun (acc : List ModObj × List String) modname =>
          if is_visible_name modname none = false then acc
          else
            let names := acc.2 ++ [modname]
            match m.importResult (m.name ++ "." ++ modname) with
            | some md => (acc.1 ++ [md], names)
            | none => (acc.1, names))
        acc
      = (acc.1 ++ (l.filter (fun n => is_visible_name n none)).filterMap
            (fun n => m.importResult (m.name ++ "." ++ n)),
         acc.2 ++ l.filter (fun n => is_visible_name n none)) := by
  induction l with
  | nil => intro acc; simp
  | cons x xs ih =>
    intro acc
    by_cases hx : is_visible_name x none = true
    · cases himp : m.importResult (m.name ++ "." ++ x) <;>
        simp [List.foldl_cons, hx, himp, ih, List.filter_cons, List.filterMap_cons]
    · have hx' : is_visible_name x none = false := by
        cases h : is_visible_name x none
        · rfl
        · exact absurd h hx
      simp [List.foldl_cons, hx', ih, List.filter_cons]

theorem submodules_char (m : PyModule) (hp : m.isPackage = true) :
    submodules m
      = (enumVisibleNames m).filterMap (fun n => m.importResult (m.name ++ "." ++ n))
        ++ (m.members.filter
              (fun kv => strStartsWith kv.2.name (m.name ++ ".")
                && !((enumVisibleNames m).contains kv.1))).map (fun kv => kv.2) := by
  unfold submodules
  rw [hp]
  simp only [if_true, submodules_foldl_char m m.iterNames ([], [])]
  simp [enumVisibleNames]

theorem count_filterMap_importResult (m : PyModule) (v : ModObj) (l : List String) :
    ((l.filterMap (fun n => m.importResult (m.name ++ "." ++ n))).count v)
      = l.countP (fun n => m.importResult (m.name ++ "." ++ n) == some v) := by
  induction l with
  | nil => simp
  | cons x xs ih =>
    cases himp : m.importResult (m.name ++ "." ++ x) with
    | none =>
      have hne : (m.importResult (m.name ++ "." ++ x) == some v) = false := by
        simp [himp]
      simp [List.filterMap_cons, himp, List.countP_cons, hne, ih]
    | some w =>
      by_cases hw : w = v
      · have heq : (m.importResult (m.name ++ "." ++ x) == some v) = true := by
          simp [himp, hw]
        simp [List.filterMap_cons, himp, List.count_cons, List.countP_cons, heq, ih, hw]
      · have hne : (m.importResult (m.name ++ "." ++ x) == some v) = false := by
          simp [himp, hw]
        simp [List.filterMap_cons, himp, List.count_cons, List.countP_cons, hne, ih, hw]

/-- C6: a submodule importable both via the filesystem enumeration pass and
via a direct binding under the same name in the package body appears exactly
once in submodules: the enumeration pass contributes it once, and the
second pass skips any binding whose name was recorded by the first pass. -/
theorem submodules_dedup (m : PyModule) (n : String) (v : ModObj)
    (hp : m.isPackage = true)
    (hcount : (enumVisibleNames m).count n = 1)
    (hother : ∀ n' ∈ enumVisibleNames m, n' ≠ n →
        m.importResult (m.name ++ "." ++ n') ≠ some v)
    (himp : m.importResult (m.name ++ "." ++ n) = some v)
    (hbind : ∀ kv ∈ m.members, kv.2 = v → kv.1 = n) :
    (submodules m).count v = 1 := by
  have hmemn : n ∈ enumVisibleNames m := by
    have : 0 < (enumVisibleNames m).count n := by omega
    exact List.count_pos_iff.mp this
  rw [submodules_char m hp, List.count_append]
  have hpass1 :
      ((enumVisibleNames m).filterMap
        (fun n' => m.importResult (m.name ++ "." ++ n'))).count v = 1 := by
    rw [count_filterMap_importResult]
    have hcongr :
        (enumVisibleNames m).countP
            (fun n' => m.importResult (m.name ++ "." ++ n') == some v)
          = (enumVisibleNames m).countP (fun n' => n' == n) := by
      apply List.countP_congr
      intro n' hn'
      by_cases hn : n' = n
      · subst hn
        simp [himp]
      · have h1 : (m.importResult (m.name ++ "." ++ n') == some v) = false :=
          beq_eq_false_iff_ne.mpr (hother n' hn' hn)
        have h2 : (n' == n) = false := beq_eq_false_iff_ne.mpr hn
        rw [h1, h2]
    rw [hcongr]
    simpa [List.count] using hcount
  have hpass2 :
      ((m.members.filter
          (fun kv => strStartsWith kv.2.name (m.name ++ ".")
            && !((enumVisibleNames m).contains kv.1))).map (fun kv => kv.2)).count v
        = 0 := by
    rw [List.count_eq_zero]
    intro hv
    obtain ⟨kv, hkv, hkv2⟩ := List.mem_map.mp hv
    have hfil := List.mem_filter.mp hkv
    have hkey := hbind kv hfil.1 hkv2
    have hcontains : (enumVisibleNames m).contains kv.1 = true := by
      rw [hkey]
      exact List.elem_eq_true_of_mem hmemn
    have := hfil.2
    rw [hcontains] at this
    simp at this
  omega

/-- Concrete package for the C6 witness: submodule "sub" is both enumerated
on the search path and bound under the same name in the package body. -/
def c6Module : PyModule :=
  { id := 20, name := "pkg",
    docAttrs := ⟨⟨none, none, false⟩, FindDocOutcome.noneResult, none⟩,
    all := none, dict := [], isPackage := true, iterNames := ["sub"],
    importResult := fun s => if s = "pkg.sub" then some ⟨21, "pkg.sub"⟩ else none,
    members := [("sub", ⟨21, "pkg.sub"⟩)] }

/-- Witness for submodules_dedup at the concrete package c6Module. -/
theorem submodules_dedup_witness :
    (submodules c6Module).count ⟨21, "pkg.sub"⟩ = 1 := by
  exact submodules_dedup c6Module "sub" ⟨21, "pkg.sub"⟩ rfl (by decide)
    (by decide) (by decide) (by decide)

/-- C7: a submodule whose import fails during discovery is non-fatal: every
other visible enumerated name whose import succeeds still contributes its
module to submodules, and the failed entry stays out — a module reachable
only through the failed name (its import never succeeds elsewhere, and any
member binding to it uses that name, which the enumeration pass recorded
even though the import failed) never appears in the list. -/
theorem submodules_failure_skipped (m : PyModule) (n : String)
    (hp : m.isPackage = true)
    (hmem : n ∈ m.iterNames)
    (hvis : is_visible_name n none = true)
    (hfail : m.importResult (m.name ++ "." ++ n) = none) :
    (∀ n' ∈ m.iterNames, is_visible_name n' none = true →
        ∀ v', m.importResult (m.name ++ "." ++ n') = some v' → v' ∈ submodules m)
      ∧ (∀ w : ModObj,
          (∀ n' ∈ m.iterNames, is_visible_name n' none = true →
              m.importResult (m.name ++ "." ++ n') ≠ some w) →
          (∀ kv ∈ m.members, kv.2 = w → kv.1 = n) →
          w ∉ submodules m) := by
  constructor
  · intro n' hn' hvis' v' himp'
    rw [submodules_char m hp]
    apply List.mem_append_left
    apply List.mem_filterMap.mpr
    exact ⟨n', List.mem_filter.mpr ⟨hn', hvis'⟩, himp'⟩
  · intro w hnoimp hbindw
    rw [submodules_char m hp]
    intro hw
    rcases List.mem_append.mp hw with h1 | h2
    · obtain ⟨n', hn', himp'⟩ := List.mem_filterMap.mp h1
      have hfil := List.mem_filter.mp hn'
      exact hnoimp n' hfil.1 (by simpa using hfil.2) himp'
    · obtain ⟨kv, hkv, hkv2⟩ := List.mem_map.mp h2
      have hfil := List.mem_filter.mp hkv
      have hkey := hbindw kv hfil.1 hkv2
      have hmemn : n ∈ enumVisibleNames m := List.mem_filter.mpr ⟨hmem, hvis⟩
      have hcontains : (enumVisibleNames m).contains kv.1 = true := by
        rw [hkey]
        exact List.elem_eq_true_of_mem hmemn
      have := hfil.2
      rw [hcontains] at this
      simp at this

/-- Concrete package for the C7 witness: the enumerated submodule "bad"
fails to load (and is bound in the package body only under the name "bad"), while
"good" imports fine. -/
def c7Module : PyModule :=
  { id := 30, name := "p",
    docAttrs := ⟨⟨none, none, false⟩, FindDocOutcome.noneResult, none⟩,
    all := none, dict := [], isPackage := true, iterNames := ["bad", "good"],
    importResult := fun s => if s = "p.good" then some ⟨32, "p.good"⟩ else none,
    members := [("bad", ⟨33, "p.bad"⟩)] }

/-- Witness for submodules_failure_skipped at the concrete package
c7Module: the healthy submodule is present, the failed one absent. -/
theorem submodules_failure_skipped_witness :
    (⟨32, "p.good"⟩ : ModObj) ∈ submodules c7Module
      ∧ (⟨33, "p.bad"⟩ : ModObj) ∉ submodules c7Module := by
  have h := submodules_failure_skipped c7Module "bad" rfl (by decide) (by decide)
    (by decide)
  constructor
  · exact h.1 "good" (by decide) (by decide) ⟨32, "p.good"⟩ (by decide)
  · exact h.2 ⟨33, "p.bad"⟩ (by decide) (by decide)

/-- One parameter entry of the external docstring parser
(docstring_parser.DocstringParam). -/
structure DocstringParam where
  arg_name : String
  type_name : Option String
  description : Option String
  deriving DecidableEq, Repr

/-- The return entry of the external docstring parser. -/
structure DocstringReturns where
  type_name : Option String
  description : Option String
  deriving DecidableEq, Repr

/-- One raises entry of the external docstring parser. -/
structure DocstringRaises where
  type_name : Option String
  description : Option String
  deriving DecidableEq, Repr

/-- One example entry of the external docstring parser. -/
structure DocstringExample where
  description : Option String
  deriving DecidableEq, Repr

/-- The structured record the external docstring parser returns. -/
structure Docstring where
  short_description : Option String
  long_description : Option String
  params : List DocstringParam
  returns : Option DocstringReturns
  raises : List DocstringRaises
  examples : List DocstringExample
  deriving DecidableEq, Repr

/-- The parser output for a docstring with no content. -/
def emptyDocstring : Docstring :=
  ⟨none, none, [], none, [], []⟩

/-- MarkdownBuilder configuration (markdown.py lines 106-129) plus the
external docstring_parser.parse with the builder's style selector baked
in (builders/__init__.py line 55). -/
structure MarkdownBuilder where
  anchor_extend : Bool
  ignore_data : Bool
  parse : String → Docstring

/-- Markdown.escape (markdown.py lines 70-78): a backslash before every
Markdown control character. -/
def Markdown.escape (text : String) : String :=
  String.mk
    (text.data.foldl
      (fun acc c =>
        if c ∈ "*#\\()[]<>_`".data then acc ++ ['\\', c] else acc ++ [c])
      [])

/-- Whitespace-stripping of one line (str.strip), used by the indent
predicate. -/
def stripWs (l : List Char) : List Char :=
  ((l.dropWhile isPySpace).reverse.dropWhile isPySpace).reverse

/-- Markdown.indent (markdown.py lines 80-83): textwrap.indent with prefix
two spaces per level, which prefixes exactly the lines with non-whitespace
content. -/
def Markdown.indent (text : String) (level : Nat) : String :=
  let pre := List.replicate (level * 2) ' '
  String.mk
    (joinNl
      ((splitNl text.data).map
        (fun line => if (stripWs line).isEmpty then line else pre ++ line)))

/-- Markdown.italic (markdown.py lines 85-88). -/
def Markdown.italic (text : String) : String :=
  "_" ++ text ++ "_"

/-- Markdown.bold (markdown.py lines 90-93). -/
def Markdown.bold (text : String) : String :=
  "**" ++ text ++ "**"

/-- Markdown.title (markdown.py lines 95-98). -/
def Markdown.title (text : String) (level : Nat) : String :=
  String.mk (List.replicate level '#') ++ " " ++ text

/-- Markdown.inline_code (markdown.py lines 100-103). -/
def Markdown.inline_code (text : String) : String :=
  "`" ++ text ++ "`"

/-- Substring occurrence test on character lists (Python `in` on str). -/
def hasSub (s pat : List Char) : Bool :=
  match s with
  | [] => pat.isEmpty
  | _ :: rest => isPre pat s || hasSub rest pat

/-- Python `pat in s` for strings. -/
def strContainsSub (s pat : String) : Bool :=
  hasSub s.data pat.data

/-- Truthiness of an annotation object: the Signature.empty sentinel is a
class (truthy), a string annotation is truthy when non-empty, any other
annotation object is truthy. -/
def annTruthy : Ann → Bool
  | Ann.empty => true
  | Ann.strAnn s => s ≠ ""
  | Ann.objAnn _ => true

/-- get_description (markdown.py lines 19-33): short then long description,
each kept only when truthy. -/
def get_description (docstring : Docstring) : List String :=
  (if pyTruthy docstring.short_description = true
    then [docstring.short_description.getD ""] else [])
    ++ (if pyTruthy docstring.long_description = true
        then [docstring.long_description.getD ""] else [])

/-- parser_param (markdown.py lines 36-52): bullet with bold escaped name,
optional italic escaped annotation in parentheses, optional description. -/
def parser_param (name : String) (annot : Option String) (description : Option String) : String :=
  let result := "- " ++ Markdown.bold (Markdown.escape name)
  let result :=
    if pyTruthy annot = true then
      result ++ " (" ++ Markdown.italic (Markdown.escape (annot.getD "")) ++ ")"
    else result
  if pyTruthy description = true then result ++ " - " ++ description.getD "" else result

/-- parser_docstring_param (markdown.py lines 55-64). -/
def parser_docstring_param (param : DocstringParam) : String :=
  parser_param param.arg_name param.type_name param.description

/-- MarkdownBuilder._build_str (markdown.py lines 177-179): join the
non-empty strings with blank lines. -/
def _build_str (l : List String) : String :=
  joinSep "\n\n" (l.filter (fun x => x ≠ ""))

/-- MarkdownBuilder._extend_title (markdown.py lines 200-206): append the
anchor derived from the qualified name when anchors are enabled. -/
def _extend_title (b : MarkdownBuilder) (title : String) (qualname : String) : String :=
  if b.anchor_extend = false then title
  else
    let anchor := String.mk
      (qualname.data.map (fun c => if c ∈ "*#\\()[]<>_`.".data then '-' else c))
    title ++ " \x7b#" ++ anchor ++ "\x7d"

/-- Generic ordered association-list lookup (dict.get). -/
def lookupPair {α : Type} (l : List (String × α)) (k : String) : Option α :=
  match l with
  | [] => none
  | kv :: rest => if kv.1 = k then some kv.2 else lookupPair rest k

/-- Ordered association-list update with Python dict semantics: an existing
key keeps its position, a new key is appended. -/
def updAssoc {α : Type} (l : List (String × α)) (k : String) (v : α) : List (String × α) :=
  if l.any (fun kv => kv.1 = k) then
    l.map (fun kv => if kv.1 = k then (k, v) else kv)
  else l ++ [(k, v)]

/-- DataNode.annotations (sophia_doc/__init__.py lines 480-487): for a
property or a functools.cached_property the annotations of the underlying
getter function, else the object's own. -/
def dataNodeAnnotations (obj : PyObject) : List (String × Ann) :=
  if obj.core.isPropertyObj = true then obj.core.getterAnnotations
  else if obj.core.isCachedProp = true then obj.core.getterAnnotations
  else obj.core.annotations

/-- An optional string under Python `or ""`. -/
def strOrEmptyTruthy (o : Option String) : String :=
  if pyTruthy o = true then o.getD "" else ""

/-- Python str.format rendering of an optional string: None prints as
"None". -/
def strOrNoneWord : Option String → String
  | some s => s
  | none => "None"

/-- MarkdownBuilder.build_data (markdown.py lines 459-507): the empty string
when ignore_data is set and the kind is exactly "data"; otherwise the
titled section, a "Type:" line when the kind contains "property" and a
truthy return annotation resolves, then the description. -/
def build_data (b : MarkdownBuilder) (obj : PyObject) (name qualname : String)
    (level : Nat) (kind : String) : String :=
  if b.ignore_data = true ∧ kind = "data" then ""
  else
    let nodeQual := obj.core.qualnameAttr.getD qualname
    let result := [_extend_title b
      (Markdown.title (Markdown.italic kind ++ " " ++ Markdown.inline_code name) (level + 1))
      nodeQual]
    let retAnnOpt := lookupPair (dataNodeAnnotations obj) "return"
    let result := result ++
      (match retAnnOpt with
       | some ann =>
         if strContainsSub kind "property" = true ∧ annTruthy ann = true then
           ["Type: " ++ Markdown.italic (Markdown.escape ( format_annotation ann))]
         else []
       | none => [])
    let docstring := b.parse (getdoc obj.core.docAttrs)
    let result := result ++ get_description docstring
    _build_str result

/-- MarkdownBuilder._build_argument (markdown.py lines 293-352): merge the
signature parameters (keys prefixed for var parameters) with the docstring
parameter entries by name; a docstring entry replaces the signature entry
but borrows a formatted annotation as its type name when it lacks one; the
first entry is dropped when the caller asked to ignore the receiver; a
heading precedes the entries when any remain.  (The unmatched-name warning
is a diagnostic only.) -/
def _build_argument (b : MarkdownBuilder) (obj : PyObject) (docstring : Docstring)
    (ignore_first_arg : Bool) : List String :=
  let hasSigParams : Bool :=
    match obj.core.sig with
    | some sg => !sg.parameters.isEmpty
    | none => false
  if docstring.params ≠ [] ∨ hasSigParams = true then
    let parma_dict : List (String × (Option Param × Option DocstringParam)) :=
      match obj.core.sig with
      | some sg =>
        if sg.parameters.isEmpty then []
        else
          sg.parameters.foldl
            (fun acc param =>
              let key :=
                if param.kind = ParamKind.var_positional then "*" ++ param.name
                else if param.kind = ParamKind.var_keyword then "**" ++ param.name
                else param.name
              updAssoc acc key (some param, none))
            []
      | none => []
    let parma_dict := docstring.params.foldl
      (fun acc param_doc =>
        let paramOpt : Option Param :=
          match lookupPair acc param_doc.arg_name with
          | some pr => pr.1
          | none => none
        let param_doc :=
          match param_doc.type_name, paramOpt with
          | none, some p => { param_doc with type_name := some ( format_annotation p.anno) }
          | _, _ => param_doc
        updAssoc acc param_doc.arg_name (paramOpt, some param_doc))
      parma_dict
    let parma_dict :=
      if ignore_first_arg = true ∧ parma_dict ≠ [] then parma_dict.drop 1 else parma_dict
    let result : List String := if parma_dict ≠ [] then ["- **Arguments**"] else []
    result ++ parma_dict.foldl
      (fun acc kv =>
        match kv.2.2 with
        | some param_doc => acc ++ [Markdown.indent (parser_docstring_param param_doc) 1]
        | none =>
          match kv.2.1 with
          | some param =>
            acc ++ [Markdown.indent
              (parser_param param.name (some ( format_annotation param.anno)) none) 1]
          | none => acc)
      []
  else []

/-- MarkdownBuilder.build_function (markdown.py lines 354-457): the empty
string (plus a diagnostic) when the signature is unavailable; otherwise the
titled section with async/lambda tags and the formatted call signature,
description, Arguments block, Returns block (docstring type name winning
over the return annotation), Raises bullets, and the first example. -/
def build_function (b : MarkdownBuilder) (obj : PyObject) (name qualname : String)
    (level : Nat) (kind : String) (ignore_first_arg : Bool) : String :=
  match obj.core.sig with
  | none => ""
  | some sg =>
    let kind := joinSep " "
      ((if obj.core.isAsyncFn = true then ["async"] else [])
        ++ (if obj.core.pyName.getD name = "<lambda>" then ["lambda"] else [])
        ++ [kind])
    let nodeQual := obj.core.qualnameAttr.getD qualname
    let result := [_extend_title b
      (Markdown.title
        (Markdown.italic kind ++ " "
          ++ Markdown.inline_code (name ++ format_signature sg))
        (level + 1))
      nodeQual]
    let docstring := b.parse (getdoc obj.core.docAttrs)
    let result := result ++ get_description docstring
    let result := result ++ _build_argument b obj docstring ignore_first_arg
    let result := result ++
      (if docstring.returns.isSome ∨ sg.retAnno ≠ Ann.empty then
        let type_name : String :=
          match docstring.returns with
          | some r =>
            match r.type_name with
            | some tn => tn
            | none => if sg.retAnno ≠ Ann.empty then format_annotation sg.retAnno else ""
          | none => if sg.retAnno ≠ Ann.empty then format_annotation sg.retAnno else ""
        ["- **Returns**"]
          ++ (if type_name ≠ "" then
                [Markdown.indent ("Type: " ++ Markdown.italic (Markdown.escape type_name)) 1]
              else [])
          ++ (match docstring.returns with
              | some r =>
                if pyTruthy r.description = true then
                  [Markdown.indent (r.description.getD "") 1]
                else []
              | none => [])
      else [])
    let result := result ++
      (if docstring.raises ≠ [] then
        ["- **Raises**"]
          ++ docstring.raises.map
            (fun raise_doc =>
              Markdown.indent
                ("- " ++ Markdown.bold (Markdown.escape (strOrEmptyTruthy raise_doc.type_name))
                  ++ " - " ++ strOrNoneWord raise_doc.description) 1)
      else [])
    let result := result ++
      (match docstring.examples with
       | [] => []
       | ex :: _ => ["- **Examples**", Markdown.indent (strOrEmptyTruthy ex.description) 1])
    _build_str result

mutual

/-- Structural size of an embedded object, used as the termination measure
of the renderer's recursion over nested class attributes. -/
def PyObject.size : PyObject → Nat
  | PyObject.mk _ d f => 1 + sizeEntries d + sizeOptObj f

/-- Combined size of an attribute map. -/
def sizeEntries : List (String × PyObject) → Nat
  | [] => 0
  | (_, v) :: rest => v.size + sizeEntries rest

/-- Size of an optional object. -/
def sizeOptObj : Option PyObject → Nat
  | none => 0
  | some o => o.size

end

/-- Size of the object a node wraps. -/
def DocNode.objSize : DocNode → Nat
  | DocNode.moduleNode o => o.size
  | DocNode.classNode o _ _ => o.size
  | DocNode.functionNode o _ _ => o.size
  | DocNode.dataNode o _ _ => o.size
  | DocNode.otherNode o _ _ => o.size

theorem lookupObj_size_le (d : List (String × PyObject)) (nm : String) (v : PyObject)
    (h : lookupObj d nm = some v) : v.size ≤ sizeEntries d := by
  induction d with
  | nil => simp [lookupObj] at h
  | cons kv rest ih =>
    obtain ⟨k, w⟩ := kv
    by_cases hk : k = nm
    · have hv : w = v := by
        simp [lookupObj, hk] at h
        exact h
      subst hv
      simp [sizeEntries]
    · have h' : lookupObj rest nm = some v := by
        simpa [lookupObj, hk] using h
      have := ih h'
      simp [sizeEntries]
      omega

theorem lookup_size_lt (o : PyObject) (nm : String) (v : PyObject)
    (h : lookupObj o.dict nm = some v) : v.size < o.size := by
  cases o with
  | mk c d f =>
    have hle := lookupObj_size_le d nm v (by simpa [PyObject.dict] using h)
    simp only [PyObject.size]
    omega

theorem funcAttrGetD_size_le (o : PyObject) : (o.funcAttr.getD o).size ≤ o.size := by
  cases o with
  | mk c d f =>
    cases f with
    | none => simp [PyObject.funcAttr]
    | some w =>
      simp only [PyObject.funcAttr, Option.getD, PyObject.size, sizeOptObj]
      omega

theorem from_obj_objSize (o : PyObject) (n q : String) :
    (DocNode.from_obj o n q).objSize = o.size := by
  unfold DocNode.from_obj
  split_ifs <;> rfl

theorem classAttrStep_size (obj : PyObject) (qualname : String)
    (acc : List (String × String × DocNode)) (name : String) :
    ∀ t ∈ classAttrStep obj qualname acc name, t ∈ acc ∨ t.2.2.objSize < obj.size := by
  intro t ht
  unfold classAttrStep at ht
  split at ht
  · exact Or.inl ht
  · split at ht
    · exact Or.inl ht
    · cases hl : lookupObj obj.dict name with
      | none =>
        rw [hl] at ht
        exact Or.inl ht
      | some value =>
        rw [hl] at ht
        have hval : value.size < obj.size := lookup_size_lt obj name value hl
        simp only at ht
        split at ht
        · exact Or.inl ht
        · next kind _ =>
          split at ht
          · have hv2 : (value.funcAttr.getD value).size ≤ value.size :=
              funcAttrGetD_size_le value
            split at ht
            · rcases List.mem_append.mp ht with hin | hnew
              · exact Or.inl hin
              · right
                have h3 := List.mem_singleton.mp hnew
                subst h3
                show (DocNode.dataNode (value.funcAttr.getD value) name
                  (qualname ++ "." ++ name)).objSize < obj.size
                simp only [DocNode.objSize]
                omega
            · rcases List.mem_append.mp ht with hin | hnew
              · exact Or.inl hin
              · right
                have h3 := List.mem_singleton.mp hnew
                subst h3
                show (DocNode.from_obj (value.funcAttr.getD value) name
                  (qualname ++ "." ++ name)).objSize < obj.size
                rw [from_obj_objSize]
                omega
          · split at ht
            · rcases List.mem_append.mp ht with hin | hnew
              · exact Or.inl hin
              · right
                have h3 := List.mem_singleton.mp hnew
                subst h3
                show (DocNode.dataNode value name (qualname ++ "." ++ name)).objSize < obj.size
                simp only [DocNode.objSize]
                omega
            · rcases List.mem_append.mp ht with hin | hnew
              · exact Or.inl hin
              · right
                have h3 := List.mem_singleton.mp hnew
                subst h3
                show (DocNode.from_obj value name (qualname ++ "." ++ name)).objSize < obj.size
                rw [from_obj_objSize]
                omega

theorem classAttributes_size (obj : PyObject) (qualname : String) :
    ∀ t ∈ classAttributes obj qualname, t.2.2.objSize < obj.size := by
  unfold classAttributes
  have h : ∀ (l : List String) (acc : List (String × String × DocNode)),
      (∀ t ∈ acc, t.2.2.objSize < obj.size) →
      ∀ t ∈ l.foldl (classAttrStep obj qualname) acc, t.2.2.objSize < obj.size := by
    intro l
    induction l with
    | nil => intro acc hacc; simpa using hacc
    | cons x xs ih =>
      intro acc hacc t ht
      rw [List.foldl_cons] at ht
      refine ih (classAttrStep obj qualname acc x) ?_ t ht
      intro u hu
      rcases classAttrStep_size obj qualname acc x u hu with h1 | h1
      · exact hacc u h1
      · exact h1
  exact h _ [] (by simp)

/-- Sequential traversal of a list under Option: the first failure (a
raised exception in the source) propagates. -/
def mapMOpt {α β : Type} (f : α → Option β) : List α → Option (List β)
  | [] => some []
  | x :: xs =>
    match f x, mapMOpt f xs with
    | some y, some ys => some (y :: ys)
    | _, _ => none

theorem mapMOpt_congr {α β : Type} (f g : α → Option β) (l : List α)
    (h : ∀ a ∈ l, f a = g a) : mapMOpt f l = mapMOpt g l := by
  induction l with
  | nil => rfl
  | cons x xs ih =>
    have hx := h x (by simp)
    have hxs : ∀ a ∈ xs, f a = g a := fun a ha => h a (by simp [ha])
    simp only [mapMOpt, hx, ih hxs]

/-- The body of MarkdownBuilder.build_class (markdown.py lines 208-291),
parameterised by the recursive renderer used for the class attributes: the
titled section with abstract/exception-or-class tags (note: the code tests
isinstance(cls, Exception)), the bases as inline code, the description, the
merged Attributes block, the first example, then every class attribute
rendered one level deeper by build_doc with its kind passed through and the
receiver parameter suppressed for methods and class methods; an attribute
with no rendering rule propagates the ValueError (none). -/
def build_class_body
    (rec : MarkdownBuilder → DocNode → Nat → Option String → Option Bool → Option String)
    (b : MarkdownBuilder) (obj : PyObject) (name qual : String) (level : Nat) :
    Option String :=
  let kindStr := joinSep " "
    ((if obj.core.isAbstractCls = true then ["abstract"] else [])
      ++ (if obj.core.isInstanceOfException = true then ["exception"] else ["class"]))
  let nodeQual := obj.core.qualnameAttr.getD qual
  let result := [_extend_title b
    (Markdown.title (Markdown.italic kindStr ++ " " ++ Markdown.inline_code name) (level + 1))
    nodeQual]
  let result := result ++
    ["Bases: " ++ joinSep ", "
      ((obj.core.basesInfo.map
          (fun bi => (if bi.1 ≠ "builtins" then bi.1 ++ "." else "") ++ bi.2)).map
        Markdown.inline_code)]
  let docstring := b.parse (getdoc obj.core.docAttrs)
  let result := result ++ get_description docstring
  let clsAnns := obj.core.annotations
  let result := result ++
    (if docstring.params ≠ [] ∨ clsAnns ≠ [] then
      let parma_dict : List (String × (Option Ann × Option DocstringParam)) :=
        if clsAnns ≠ [] then
          (clsAnns.filter (fun kv => !(strStartsWith kv.1 "_"))).map
            (fun kv => (kv.1, (some kv.2, none)))
        else []
      let parma_dict := docstring.params.foldl
        (fun acc param_doc =>
          let annOpt : Option Ann :=
            match lookupPair acc param_doc.arg_name with
            | some pr => pr.1
            | none => none
          let param_doc :=
            match param_doc.type_name, annOpt with
            | none, some ann =>
              if annTruthy ann = true then
                { param_doc with type_name := some ( format_annotation ann) }
              else param_doc
            | _, _ => param_doc
          updAssoc acc param_doc.arg_name (annOpt, some param_doc))
        parma_dict
      ["- **Attributes**"]
        ++ parma_dict.map
          (fun kv =>
            match kv.2.2 with
            | some param_doc => Markdown.indent (parser_docstring_param param_doc) 1
            | none =>
              let annStr : Option String :=
                match kv.2.1 with
                | some ann =>
                  if annTruthy ann = true then some ( format_annotation ann) else none
                | none => none
              Markdown.indent (parser_param kv.1 annStr none) 1)
    else [])
  let result := result ++
    (match docstring.examples with
     | [] => []
     | ex :: _ => ["- **Examples**", Markdown.indent (strOrEmptyTruthy ex.description) 1])
  match mapMOpt
      (fun t => rec b t.2.2 (level + 1) (some t.2.1)
        (some ((t.2.1 == "method") || (t.2.1 == "class method"))))
      (classAttributes obj nodeQual) with
  | none => none
  | some children => some (_build_str (result ++ children))

/-- MarkdownBuilder.build_doc (markdown.py lines 181-198): dispatch on the
node kind; the kind string and ignore-first-argument flag are forwarded to
the kind-specific builders, which supply the defaults "function"/"data" and
false when the caller passed none; a Module or Other node has no rendering
rule and raises ValueError, modelled as none.  The fuel argument bounds the
class-nesting depth and exists only to make the recursion structural: any
fuel of at least the wrapped object's structural size gives the same result
(build_docF_fuel_sufficient), and the fuel-free wrappers below always
supply such a value, so the 0-fuel branch is unreachable through them. -/
def build_docF : Nat → MarkdownBuilder → DocNode → Nat → Option String → Option Bool →
    Option String
  | fuel, b, node, level, kindOpt, ifaOpt =>
    match node with
    | DocNode.classNode obj name qual =>
      (match fuel with
       | 0 => none
       | Nat.succ fuel' => build_class_body (build_docF fuel') b obj name qual level)
    | DocNode.functionNode obj name qual =>
      some (build_function b obj name qual level (kindOpt.getD "function") (ifaOpt.getD false))
    | DocNode.dataNode obj name qual =>
      some (build_data b obj name qual level (kindOpt.getD "data"))
    | DocNode.moduleNode _ => none
    | DocNode.otherNode _ _ _ => none

/-- MarkdownBuilder.build_doc (markdown.py lines 181-198) with the canonical
(always sufficient) fuel. -/
def build_doc (b : MarkdownBuilder) (node : DocNode) (level : Nat)
    (kindOpt : Option String) (ifaOpt : Option Bool) : Option String :=
  build_docF node.objSize b node level kindOpt ifaOpt

/-- MarkdownBuilder.build_class (markdown.py lines 208-291) with the
canonical (always sufficient) fuel for the attribute recursion. -/
def build_class (b : MarkdownBuilder) (obj : PyObject) (name qual : String)
    (level : Nat) : Option String :=
  build_class_body (build_docF obj.size) b obj name qual level

theorem build_class_body_congr
    (rec1 rec2 : MarkdownBuilder → DocNode → Nat → Option String → Option Bool → Option String)
    (b : MarkdownBuilder) (obj : PyObject) (name qual : String) (level : Nat)
    (h : ∀ t ∈ classAttributes obj (obj.core.qualnameAttr.getD qual),
      rec1 b t.2.2 (level + 1) (some t.2.1)
          (some ((t.2.1 == "method") || (t.2.1 == "class method")))
        = rec2 b t.2.2 (level + 1) (some t.2.1)
          (some ((t.2.1 == "method") || (t.2.1 == "class method")))) :
    build_class_body rec1 b obj name qual level = build_class_body rec2 b obj name qual level := by
  have hmap := mapMOpt_congr
    (fun t : String × String × DocNode => rec1 b t.2.2 (level + 1) (some t.2.1)
      (some ((t.2.1 == "method") || (t.2.1 == "class method"))))
    (fun t : String × String × DocNode => rec2 b t.2.2 (level + 1) (some t.2.1)
      (some ((t.2.1 == "method") || (t.2.1 == "class method"))))
    (classAttributes obj (obj.core.qualnameAttr.getD qual)) h
  simp only [build_class_body]
  rw [hmap]

theorem size_pos (o : PyObject) : 0 < o.size := by
  cases o with
  | mk c d f =>
    simp only [PyObject.size]
    omega

/-- Any fuel of at least the node's structural size computes the same
result as the canonical fuel: the fuel is a termination artifact, not part
of the modelled semantics. -/
theorem build_docF_fuel_sufficient (fuel : Nat) :
    ∀ (b : MarkdownBuilder) (node : DocNode) (level : Nat)
      (k : Option String) (i : Option Bool),
      node.objSize ≤ fuel →
      build_docF fuel b node level k i = build_doc b node level k i := by
  induction fuel using Nat.strong_induction_on with
  | _ fuel ih =>
    intro b node level k i hsz
    cases node with
    | moduleNode o =>
      cases fuel <;> simp [build_docF, build_doc, DocNode.objSize]
    | otherNode o n q =>
      cases fuel <;> simp [build_docF, build_doc, DocNode.objSize]
    | functionNode o n q =>
      cases fuel <;> simp [build_docF, build_doc, DocNode.objSize]
    | dataNode o n q =>
      cases fuel <;> simp [build_docF, build_doc, DocNode.objSize]
    | classNode obj n q =>
      have hobj : obj.size ≤ fuel := by simpa [DocNode.objSize] using hsz
      have hpos := size_pos obj
      cases fuel with
      | zero => omega
      | succ f =>
        obtain ⟨s, hs⟩ : ∃ s, obj.size = s + 1 := ⟨obj.size - 1, by omega⟩
        have hlhs : build_docF (f + 1) b (DocNode.classNode obj n q) level k i
            = build_class_body (build_docF f) b obj n q level := by
          rfl
        have hrhs : build_doc b (DocNode.classNode obj n q) level k i
            = build_class_body (build_docF s) b obj n q level := by
          simp only [build_doc, DocNode.objSize, hs]
          rfl
        rw [hlhs, hrhs]
        apply build_class_body_congr
        intro t ht
        have hchild : t.2.2.objSize < obj.size := classAttributes_size obj _ t ht
        have h1 : build_docF f b t.2.2 (level + 1) (some t.2.1)
              (some ((t.2.1 == "method") || (t.2.1 == "class method")))
            = build_doc b t.2.2 (level + 1) (some t.2.1)
              (some ((t.2.1 == "method") || (t.2.1 == "class method"))) := by
          apply ih f (by omega)
          omega
        have h2 : build_docF s b t.2.2 (level + 1) (some t.2.1)
              (some ((t.2.1 == "method") || (t.2.1 == "class method")))
            = build_doc b t.2.2 (level + 1) (some t.2.1)
              (some ((t.2.1 == "method") || (t.2.1 == "class method"))) := by
          apply ih s (by omega)
          omega
        rw [h1, h2]

/-- MarkdownBuilder.text (markdown.py lines 164-175): the level-1 title with
the module's dotted name, the module description, then every module
attribute rendered by build_doc, joined with blank lines, with a trailing
newline. -/
def text (b : MarkdownBuilder) (m : PyModule) : Option String :=
  let docstring := b.parse (getdoc m.docAttrs)
  match mapMOpt (fun node => build_doc b node 1 none none) (moduleAttributes m) with
  | none => none
  | some children =>
    some (_build_str ([Markdown.title m.name 1] ++ get_description docstring ++ children) ++ "\n")

/-- Doc-slot record of an object with no docstring, no comments, and no
findable documentation. -/
def noDocAttrs : DocAttrs :=
  ⟨⟨none, none, false⟩, FindDocOutcome.noneResult, none⟩

/-- A PyCore with every reflection fact at its most inert value; concrete
objects below override the fields they need. -/
def blankCore : PyCore :=
  { id := 0, kind := PyKind.plain, pyName := none, qualnameAttr := none,
    docAttrs := noDocAttrs, getmoduleId := none, sig := none, isAsyncFn := false,
    annotations := [], getterAnnotations := [], dirNames := [], ownDictKeys := [],
    slots := [], isInstanceOfEnum := false, isSubclassOfEnum := false,
    isInstanceOfException := false, isSubclassOfException := false,
    isAbstractCls := false, basesInfo := [], isStaticW := false, isClassW := false,
    isPropertyObj := false, propHasSetter := false, isDataDesc := false,
    isCachedProp := false }

/-- A builder with default options and a docstring parser that finds no
structure (every docstring in the scenarios below is empty). -/
def mdPlain : MarkdownBuilder :=
  ⟨false, false, fun _ => emptyDocstring⟩

/-- The same builder with ignore_data enabled. -/
def mdIgnore : MarkdownBuilder :=
  ⟨false, true, fun _ => emptyDocstring⟩

theorem strDataAppend (a b : String) : (a ++ b).data = a.data ++ b.data := rfl

theorem joinSep_head_ne (sep x : String) (l : List String) (hx : x ≠ "") :
    joinSep sep (x :: l) ≠ "" := by
  cases l with
  | nil => simpa [joinSep] using hx
  | cons y ys =>
    simp only [joinSep]
    intro hcontr
    apply hx
    have hdata := congrArg String.data hcontr
    rw [strDataAppend, strDataAppend] at hdata
    rcases List.append_eq_nil.mp hdata with ⟨h1, _⟩
    rcases List.append_eq_nil.mp h1 with ⟨h2, _⟩
    have : x.data = ("" : String).data := h2
    exact congrArg String.mk this

theorem _build_str_head_ne (x : String) (l : List String) (hx : x ≠ "") :
    _build_str (x :: l) ≠ "" := by
  unfold _build_str
  have hfil : (x :: l).filter (fun s => s ≠ "") = x :: l.filter (fun s => s ≠ "") := by
    simp [List.filter_cons, hx]
  rw [hfil]
  exact joinSep_head_ne _ _ _ hx

theorem title_ne (t : String) (lvl : Nat) : Markdown.title t lvl ≠ "" := by
  unfold Markdown.title
  intro h
  have hdata := congrArg String.data h
  rw [strDataAppend, strDataAppend] at hdata
  rcases List.append_eq_nil.mp hdata with ⟨h1, _⟩
  rcases List.append_eq_nil.mp h1 with ⟨_, h2⟩
  simp at h2

theorem extend_title_ne (b : MarkdownBuilder) (t q : String) (ht : t ≠ "") :
    _extend_title b t q ≠ "" := by
  unfold _extend_title
  split
  · exact ht
  · intro h
    have hdata := congrArg String.data h
    rw [strDataAppend, strDataAppend, strDataAppend] at hdata
    rcases List.append_eq_nil.mp hdata with ⟨_, h2⟩
    simp at h2

theorem build_data_ne (b : MarkdownBuilder) (obj : PyObject) (name qualname : String)
    (level : Nat) (kind : String) (h : ¬(b.ignore_data = true ∧ kind = "data")) :
    build_data b obj name qualname level kind ≠ "" := by
  unfold build_data
  rw [if_neg h]
  simp only [List.cons_append, List.nil_append]
  exact _build_str_head_ne _ _ (extend_title_ne _ _ _ (title_ne _ _))

/-- A module-level function whose signature inspect can resolve (no
parameters, no return annotation). -/
def c3FObj : PyObject :=
  PyObject.mk
    { blankCore with
      id := 40, kind := PyKind.routine, pyName := some "f",
      qualnameAttr := some "f", sig := some ⟨[], Ann.empty⟩, getmoduleId := some 41 }
    [] none

/-- A module-level function whose signature inspect cannot resolve. -/
def c3GObj : PyObject :=
  PyObject.mk
    { blankCore with
      id := 42, kind := PyKind.routine, pyName := some "gfunc",
      qualnameAttr := some "gfunc", sig := none, getmoduleId := some 41 }
    [] none

/-- A module binding both functions. -/
def c3Module : PyModule :=
  { id := 41, name := "m", docAttrs := noDocAttrs, all := none,
    dict := [("f", c3FObj), ("gfunc", c3GObj)], isPackage := false,
    iterNames := [], importResult := fun _ => none, members := [] }

/-- C3: a function whose signature cannot be determined contributes nothing
to the output: build_function returns the empty string for every such node
(the diagnostic warning is a side effect outside the embedding), and since
_build_str drops empty strings, rendering the concrete module with
functions f (resolvable) and gfunc (not resolvable) yields exactly the title
and f's heading — the output contains f's heading and no trace of gfunc. -/
theorem build_function_skips_unsigned :
    (∀ (b : MarkdownBuilder) (obj : PyObject) (name qualname : String)
        (level : Nat) (kind : String) (ifa : Bool),
        obj.core.sig = none →
        build_function b obj name qualname level kind ifa = "")
      ∧ text mdPlain c3Module = some "# m\n\n## _function_ `f()`\n"
      ∧ strContainsSub "# m\n\n## _function_ `f()`\n" "## _function_ `f()`" = true
      ∧ strContainsSub "# m\n\n## _function_ `f()`\n" "gfunc" = false := by
  refine ⟨?_, by decide, by decide, by decide⟩
  intro b obj name qualname level kind ifa h
  simp [build_function, h]

/-- Witness for build_function_skips_unsigned at the concrete unsigned
function gfunc. -/
theorem build_function_skips_unsigned_witness :
    build_function mdPlain c3GObj "gfunc" "gfunc" 1 "function" false = "" :=
  build_function_skips_unsigned.1 mdPlain c3GObj "gfunc" "gfunc" 1 "function" false rfl

/-- A class derived from Exception, as CPython reflects it: it is a subclass
of Exception, but — being a class, an instance of type — it is not an
instance of Exception. -/
def c5ErrCls : PyObject :=
  PyObject.mk
    { blankCore with
      id := 50, kind := PyKind.cls, pyName := some "MyError",
      qualnameAttr := some "MyError", isSubclassOfException := true,
      isInstanceOfException := false, basesInfo := [("builtins", "Exception")] }
    [] none

/-- C5: evaluating build_class on a class derived from Exception shows its
title tagged "_class_", not "_exception_": the code tests
isinstance(node.obj, Exception), which is False for every exception class
(a class is an instance of type), so the "exception" branch is dead — the
claim describes the evident intent (issubclass), which the code fails to
implement. -/
theorem exception_class_tagged_class :
    c5ErrCls.core.isSubclassOfException = true
      ∧ c5ErrCls.core.isInstanceOfException = false
      ∧ build_class mdPlain c5ErrCls "MyError" "MyError" 1
          = some "## _class_ `MyError`\n\nBases: `Exception`"
      ∧ strContainsSub "## _class_ `MyError`\n\nBases: `Exception`" "_class_" = true
      ∧ strContainsSub "## _class_ `MyError`\n\nBases: `Exception`" "_exception_" = false := by
  refine ⟨rfl, rfl, by decide, by decide, by decide⟩

/-- A property attribute (with a setter) of the C8 class. -/
def c8PropObj : PyObject :=
  PyObject.mk
    { blankCore with
      id := 61, isPropertyObj := true, propHasSetter := true }
    [] none

/-- A plain data attribute of the C8 class. -/
def c8ValObj : PyObject :=
  PyObject.mk { blankCore with id := 62 } [] none

/-- A class with one plain data attribute and one property. -/
def c8Cls : PyObject :=
  PyObject.mk
    { blankCore with
      id := 60, kind := PyKind.cls, pyName := some "C",
      qualnameAttr := some "C", dirNames := ["prop", "val"],
      ownDictKeys := ["prop", "val"], basesInfo := [("builtins", "object")] }
    [("prop", c8PropObj), ("val", c8ValObj)] none

/-- C8: with ignore_data enabled, build_data returns the empty string (the
node is skipped) exactly when the passed-through kind is the string "data";
nodes with any other kind — in particular the property kinds — always
render a section, which starts with a non-empty title.  On the concrete
class with one plain data attribute and one property, the rendered output
contains the property's section and omits the data attribute entirely. -/
theorem build_data_ignore_exact :
    (∀ (b : MarkdownBuilder) (obj : PyObject) (name qualname : String)
        (level : Nat) (kind : String),
        b.ignore_data = true →
        (build_data b obj name qualname level kind = "" ↔ kind = "data"))
      ∧ build_class mdIgnore c8Cls "C" "C" 1
          = some "## _class_ `C`\n\nBases: `object`\n\n### _property_ `prop`"
      ∧ strContainsSub "## _class_ `C`\n\nBases: `object`\n\n### _property_ `prop`"
          "_property_ `prop`" = true
      ∧ strContainsSub "## _class_ `C`\n\nBases: `object`\n\n### _property_ `prop`"
          "val" = false := by
  refine ⟨?_, by decide, by decide, by decide⟩
  intro b obj name qualname level kind hig
  constructor
  · intro heq
    by_contra hkind
    exact build_data_ne b obj name qualname level kind
      (fun hc => hkind hc.2) heq
  · intro hkind
    subst hkind
    simp [build_data, hig]

/-- Witness for the general part of build_data_ignore_exact: the concrete
data attribute is skipped, the concrete property attribute is not. -/
theorem build_data_ignore_exact_witness :
    build_data mdIgnore c8ValObj "val" "C.val" 2 "data" = ""
      ∧ build_data mdIgnore c8PropObj "prop" "C.prop" 2 "property" ≠ "" := by
  constructor
  · exact (build_data_ignore_exact.1 mdIgnore c8ValObj "val" "C.val" 2 "data" rfl).mpr rfl
  · intro h
    exact absurd ((build_data_ignore_exact.1 mdIgnore c8PropObj "prop" "C.prop" 2
      "property" rfl).mp h) (by decide)

/-- A module object bound inside its own namespace (the effect of a
self-import in a package body): inspect.getmodule of a module is the module
itself, so the owning-module test passes. -/
def c10SelfObj : PyObject :=
  PyObject.mk
    { blankCore with
      id := 70, kind := PyKind.module, pyName := some "pkg",
      getmoduleId := some 70 }
    [] none

/-- The package whose dict binds itself under its own (visible) name. -/
def c10CexModule : PyModule :=
  { id := 70, name := "pkg", docAttrs := noDocAttrs, all := none,
    dict := [("pkg", c10SelfObj)], isPackage := true, iterNames := [],
    importResult := fun _ => none, members := [] }

/-- C10 counterexample: for a module whose dict contains the module itself
under a visible name (a self-import), ModuleNode.attributes DOES contain a
Module node — getmodule of a module is that module, so the owning-module
test passes — and rendering the module reaches the dispatch failure
(ValueError, modelled none), so the claimed invariant is false. -/
theorem moduleAttributes_module_node_cex :
    moduleAttributes c10CexModule = [DocNode.moduleNode c10SelfObj]
      ∧ text mdPlain c10CexModule = none := by
  exact ⟨rfl, by decide⟩

/-- C10 (amended): for a module none of whose module-valued bindings is the
module itself (getmodule of a module object being that object), the
attributes list contains no Module node, so the renderer's per-attribute
dispatch never reaches its unhandled-node branch for a module-valued
binding; only a self-referential binding escapes the owning-module filter.
The second conjunct records that the dispatch indeed has no rule for a
Module node. -/
theorem moduleAttributes_no_foreign_module :
    (∀ (m : PyModule),
        (∀ kv ∈ m.dict, kv.2.core.kind = PyKind.module →
            kv.2.core.getmoduleId = some kv.2.core.id ∧ kv.2.core.id ≠ m.id) →
        ∀ node ∈ moduleAttributes m, ∀ o : PyObject, node ≠ DocNode.moduleNode o)
      ∧ (∀ (b : MarkdownBuilder) (o : PyObject) (level : Nat)
          (k : Option String) (i : Option Bool),
          build_doc b (DocNode.moduleNode o) level k i = none) := by
  constructor
  · intro m hm node hnode o hcontra
    have hchar : moduleAttributes m
        = (m.dict.filter
            (fun kv => getmodule_or_self_is_self m kv.2 && is_visible_name kv.1 m.all)).map
            (fun kv => DocNode.from_obj kv.2 kv.1 kv.1) := by
      have h0 := foldl_if_append_eq_filter_map
        (fun kv : String × PyObject =>
          getmodule_or_self_is_self m kv.2 && is_visible_name kv.1 m.all)
        (fun kv : String × PyObject => DocNode.from_obj kv.2 kv.1 kv.1) m.dict []
      simpa [moduleAttributes] using h0
    rw [hchar] at hnode
    obtain ⟨kv, hkvmem, hkveq⟩ := List.mem_map.mp hnode
    have hfil := List.mem_filter.mp hkvmem
    rw [← hkveq] at hcontra
    by_cases hkind : kv.2.core.kind = PyKind.module
    · have hmod := hm kv hfil.1 hkind
      have howner : getmodule_or_self_is_self m kv.2 = false := by
        simp [getmodule_or_self_is_self, hmod.1, hmod.2]
      have hfil2 := hfil.2
      rw [Bool.and_eq_true] at hfil2
      rw [howner] at hfil2
      simp at hfil2
    · unfold DocNode.from_obj at hcontra
      rw [if_neg hkind] at hcontra
      split_ifs at hcontra <;> simp at hcontra
  · intro b o level k i
    simp [build_doc, build_docF]

/-- A module object defined elsewhere (the usual `import os` situation). -/
def c10WitObj : PyObject :=
  PyObject.mk
    { blankCore with
      id := 80, kind := PyKind.module, pyName := some "os",
      getmoduleId := some 80 }
    [] none

/-- A plain value owned by the module itself. -/
def c10WitVal : PyObject :=
  PyObject.mk { blankCore with id := 82, getmoduleId := some 81 } [] none

/-- A module binding a foreign module and an own plain value. -/
def c10WitModule : PyModule :=
  { id := 81, name := "w", docAttrs := noDocAttrs, all := none,
    dict := [("os", c10WitObj), ("x", c10WitVal)], isPackage := false,
    iterNames := [], importResult := fun _ => none, members := [] }

/-- Witness for moduleAttributes_no_foreign_module at the concrete module
c10WitModule. -/
theorem moduleAttributes_no_foreign_module_witness :
    (∀ node ∈ moduleAttributes c10WitModule, ∀ o : PyObject,
        node ≠ DocNode.moduleNode o)
      ∧ build_doc mdPlain (DocNode.moduleNode c10WitObj) 1 none none = none := by
  exact ⟨moduleAttributes_no_foreign_module.1 c10WitModule (by decide),
    moduleAttributes_no_foreign_module.2 mdPlain c10WitObj 1 none none⟩
